import Mathlib

/-!
Verification of the py-xiaozhi client session engine against its
natural-language specification.  The definitions below are a shallow
embedding of the Python source:

* `XiaoZhi.Mqtt`  models `src/protocols/mqtt_protocol.py` (the
  SplitTransport: nonce derivation, AES-CTR datagram encryption,
  sequence counters, goodbye/hello session handling);
* `XiaoZhi.App`   models `src/application.py` (the Session Engine:
  device state machine, dispatcher task queue, network-error and
  TTS handlers, reconnect routine).

Machine integers are `Nat` with explicit `% 2 ^ w`; Python byte strings
are `List Nat` (each element a byte value); Python hex strings are
`List Char`.  Side effects (display updates, stream start/stop, sends)
are recorded in explicit event traces.
-/

namespace XiaoZhi

/-- Device states, from `src/constants/constants.py` (`DeviceState`). -/
inductive DeviceState where
  | idle
  | connecting
  | listening
  | speaking
deriving DecidableEq, Repr

/-- Listening modes, from `src/constants/constants.py` (`ListeningMode`). -/
inductive ListeningMode where
  | always_on
  | auto_stop
  | manual
deriving DecidableEq, Repr

/-- Abort reasons, from `src/constants/constants.py` (`AbortReason`). -/
inductive AbortReason where
  | no_reason
  | wake_word_detected
deriving DecidableEq, Repr

namespace Mqtt

/-- Value of a single hex digit character (0 for non-hex input, which the
Python source never feeds it). -/
def hexVal (c : Char) : Nat :=
  if '0' ≤ c ∧ c ≤ '9' then c.toNat - '0'.toNat
  else if 'a' ≤ c ∧ c ≤ 'f' then c.toNat - 'a'.toNat + 10
  else if 'A' ≤ c ∧ c ≤ 'F' then c.toNat - 'A'.toNat + 10
  else 0

/-- Lowercase hex digit character for a nibble, as Python `format(_, 'x')`
produces. -/
def hexDigit (n : Nat) : Char :=
  if n < 10 then Char.ofNat ('0'.toNat + n) else Char.ofNat ('a'.toNat + (n - 10))

/-- Fuel-driven most-significant-first hex digit accumulator.  The fuel
bounds the digit count; 32 digits cover every value the source ever
formats (≤ 2 ^ 128). -/
def hexDigitsAux : Nat → Nat → List Char → List Char
  | 0, _, ds => ds
  | fuel + 1, n, ds =>
      let d := hexDigit (n % 16)
      let m := n / 16
      if m = 0 then d :: ds else hexDigitsAux fuel m (d :: ds)

/-- Minimal lowercase hex representation of a natural number. -/
def toHex (n : Nat) : List Char := hexDigitsAux 32 n []

/-- Python `format(n, '0{w}x')`: lowercase hex, left-padded with zeros to
width `w` (never truncated). -/
def hexPad (w n : Nat) : List Char :=
  List.replicate (w - (toHex n).length) '0' ++ toHex n

/-- Python `bytes.fromhex`: consume hex characters two at a time into
byte values.  A trailing odd character is dropped (the source only ever
passes even-length strings). -/
def fromHex : List Char → List Nat
  | a :: b :: rest => (16 * hexVal a + hexVal b) :: fromHex rest
  | _ => []

/-- Big-endian numeric value of a hex string (the 128-bit initial counter
block that `modes.CTR` derives from the 16 nonce bytes). -/
def hexToNat (s : List Char) : Nat := s.foldl (fun a c => 16 * a + hexVal c) 0

/-- One keystream byte of AES-CTR.  The AES block cipher itself lives in
the external `cryptography` library and is out of scope; it is taken as
an arbitrary keyed block function `E : key → counter block → block`.
Per the library semantics of `modes.CTR`, block `i / 16` of the keystream
is `E key ((nonce + i / 16) % 2 ^ 128)` and bytes are serialized
big-endian. -/
def ctr_keystream_byte (E : Nat → Nat → Nat) (key nonce i : Nat) : Nat :=
  E key ((nonce + i / 16) % 2 ^ 128) / 256 ^ (15 - i % 16) % 256

/-- The first `len` keystream bytes of AES-CTR under `(key, nonce)`. -/
def ctr_keystream (E : Nat → Nat → Nat) (key nonce len : Nat) : List Nat :=
  (List.range len).map (ctr_keystream_byte E key nonce)

/-- `MqttProtocol.aes_ctr_encrypt`: XOR the plaintext with the CTR
keystream (the library `encryptor.update + finalize` for CTR mode). -/
def aes_ctr_encrypt (E : Nat → Nat → Nat) (key nonce : Nat)
    (plaintext : List Nat) : List Nat :=
  List.zipWith Nat.xor plaintext (ctr_keystream E key nonce plaintext.length)

/-- `MqttProtocol.aes_ctr_decrypt`: XOR the ciphertext with the CTR
keystream (CTR decryption is the same keystream XOR). -/
def aes_ctr_decrypt (E : Nat → Nat → Nat) (key nonce : Nat)
    (ciphertext : List Nat) : List Nat :=
  List.zipWith Nat.xor ciphertext (ctr_keystream E key nonce ciphertext.length)

/-- The mutable fields of `MqttProtocol` that the verified claims touch.
`aes_key` and `aes_nonce` are the hex strings received in the server
hello (`udp.key`, `udp.nonce`); `udp_socket` records whether the UDP
socket object exists (`self.udp_socket is not None`);
`has_closed_callback` records whether `on_audio_channel_closed` is set. -/
structure MqttState where
  session_id : Option String
  udp_server : String
  udp_port : Nat
  aes_key : Option (List Char)
  aes_nonce : Option (List Char)
  local_sequence : Nat
  remote_sequence : Nat
  udp_socket : Bool
  connected : Bool
  has_closed_callback : Bool
deriving DecidableEq, Repr

/-- The per-packet nonce built inside `MqttProtocol.send_audio`:
hex characters 0–3 of the base nonce, then the payload length as 4 hex
characters, then characters 8–23 of the base nonce, then the (masked)
sequence counter as 8 hex characters. -/
def derive_nonce (aes_nonce : List Char) (payload_len seq : Nat) : List Char :=
  aes_nonce.take 4 ++ hexPad 4 payload_len ++
    (aes_nonce.drop 8).take 16 ++ hexPad 8 seq

/-- `MqttProtocol.send_audio`.  Returns the state after the call and
`some packet` on success, `none` where the Python code returns `False`.
The guard mirrors `if not self.udp_socket or not self.udp_server or not
self.udp_port`.  Note the two separate sequence updates of the source:
`self.local_sequence = (self.local_sequence + 1) & 0xFFFFFFFF` before
the nonce is built, and an unmasked `self.local_sequence += 1` after the
datagram is sent.  If the crypto material is missing the Python code
raises after the first update and the exception handler returns `False`,
so the first update survives. -/
def send_audio (E : Nat → Nat → Nat) (st : MqttState) (audio : List Nat) :
    MqttState × Option (List Nat) :=
  if st.udp_socket = false ∨ st.udp_server = "" ∨ st.udp_port = 0 then
    (st, none)
  else
    let seq := (st.local_sequence + 1) % 2 ^ 32
    match st.aes_nonce, st.aes_key with
    | some base, some key =>
        let new_nonce := derive_nonce base audio.length seq
        let cipher := aes_ctr_encrypt E (hexToNat key) (hexToNat new_nonce) audio
        ({ st with local_sequence := seq + 1 }, some (fromHex new_nonce ++ cipher))
    | _, _ => ({ st with local_sequence := seq }, none)

/-- `MqttProtocol._handle_goodbye`: stop the datagram path and reset all
session and crypto state; the returned flag records whether
`on_audio_channel_closed` is invoked. -/
def handle_goodbye (st : MqttState) : MqttState × Bool :=
  ({ st with
      udp_socket := false
      connected := false
      session_id := none
      local_sequence := 0
      remote_sequence := 0
      udp_server := ""
      udp_port := 0
      aes_key := none
      aes_nonce := none },
    st.has_closed_callback)

/-- Python truthiness test `not session_id` on an optional string. -/
def py_falsy : Option String → Bool
  | none => true
  | some s => s = ""

/-- Python `session_id == self.session_id` where the message value is a
string and the stored value may be `None` (comparison with `None` is
`False`). -/
def py_eq_sid : Option String → Option String → Bool
  | some s, some t => s = t
  | _, _ => false

/-- The `goodbye` branch of `MqttProtocol._handle_mqtt_message`: tear the
session down only when the message session id is absent/empty or equals
the stored one; otherwise the message is dropped and the returned flag
(`on_audio_channel_closed` invoked) is `false`. -/
def handle_goodbye_message (st : MqttState) (msg_session_id : Option String) :
    MqttState × Bool :=
  if py_falsy msg_session_id || py_eq_sid msg_session_id st.session_id then
    handle_goodbye st
  else (st, false)

/-- The session/crypto effects of the `hello` branch of
`MqttProtocol._handle_mqtt_message` (a fresh handshake): store the
session id and UDP crypto material and reset both sequence counters. -/
def handle_hello_message (st : MqttState) (sid : String) (server : String)
    (port : Nat) (key nonce : List Char) : MqttState :=
  { st with
      session_id := some sid
      udp_server := server
      udp_port := port
      aes_key := some key
      aes_nonce := some nonce
      local_sequence := 0
      remote_sequence := 0 }

/-- `MqttProtocol.is_audio_channel_opened`: the UDP socket exists. -/
def is_audio_channel_opened (st : MqttState) : Bool := st.udp_socket

end Mqtt

namespace App

/-- Observable side effects of `Application` methods, in program order:
display pushes, audio stream control, wake-word detector control,
playback-queue operations, state-change callback invocations, alerts,
protocol sends, reconnect-loop steps. -/
inductive AppEvent where
  | setState (s : DeviceState)
  | updateStatus (text : String)
  | updateEmotion (e : String)
  | stopOutputStream
  | startOutputStream
  | stopInputStream
  | startInputStream
  | pauseWakeWord
  | resumeWakeWord
  | waitAudioComplete
  | clearAudioQueue
  | invokeCallback (i : Nat)
  | logCallbackError (i : Nat)
  | alert (title message : String)
  | sendStartListening (m : ListeningMode)
  | sendStopListening
  | sendAbort (r : AbortReason)
  | connectAttempt (k : Nat)
  | sleepSeconds (n : Nat)
  | closeAudioChannel
  | disconnectDetected
  | scheduleToggleChat
deriving DecidableEq, Repr

/-- The mutable fields of `Application` that the verified claims touch.
`protocol` records whether a protocol instance exists; `channel_opened`
mirrors `protocol.is_audio_channel_opened()`; `callbacks` is the
`on_state_changed_callbacks` list, each entry recording whether that
callback raises when invoked; `audio_queue` is the codec playback queue
(`audio_decode_queue`); `input_active` / `output_active` are the
`is_active()` flags of the codec streams; `output_ready` is the
`AUDIO_OUTPUT_READY_EVENT` flag. -/
structure AppState where
  device_state : DeviceState
  keep_listening : Bool
  aborted : Bool
  protocol : Bool
  channel_opened : Bool
  audio_queue : List (List Nat)
  callbacks : List Bool
  input_active : Bool
  output_active : Bool
  wake_running : Bool
  wake_paused : Bool
  output_ready : Bool
deriving DecidableEq, Repr

/-- The `for callback in self.on_state_changed_callbacks` loop at the end
of `Application.set_device_state`: every callback is invoked in order; a
raising callback is logged and the loop continues.  `i` is the index of
the first entry of `l` in the full callback list. -/
def callback_events : Nat → List Bool → List AppEvent
  | _, [] => []
  | i, raises :: rest =>
      AppEvent.invokeCallback i ::
        ((if raises then [AppEvent.logCallbackError i] else []) ++
          callback_events (i + 1) rest)

/-- The per-state branch of `Application.set_device_state` (display push,
stream start/stop, wake-word pause), run after the state assignment. -/
def state_effects (st : AppState) (s : DeviceState) : AppState × List AppEvent :=
  match s with
  | DeviceState.idle =>
      if st.output_active then
        ({ st with output_active := false },
          [AppEvent.updateStatus "待命", AppEvent.updateEmotion "😶",
            AppEvent.stopOutputStream])
      else
        (st, [AppEvent.updateStatus "待命", AppEvent.updateEmotion "😶"])
  | DeviceState.connecting =>
      (st, [AppEvent.updateStatus "连接中..."])
  | DeviceState.listening =>
      if st.input_active = false then
        ({ st with input_active := true },
          [AppEvent.updateStatus "聆听中...", AppEvent.updateEmotion "🙂",
            AppEvent.startInputStream])
      else
        (st, [AppEvent.updateStatus "聆听中...", AppEvent.updateEmotion "🙂"])
  | DeviceState.speaking =>
      let a :=
        if st.output_active = false then
          ({ st with output_active := true }, [AppEvent.startOutputStream])
        else (st, ([] : List AppEvent))
      let b :=
        if a.1.input_active then
          ({ a.1 with input_active := false }, [AppEvent.stopInputStream])
        else (a.1, ([] : List AppEvent))
      let c :=
        if b.1.wake_running then
          ({ b.1 with wake_paused := true }, [AppEvent.pauseWakeWord])
        else (b.1, ([] : List AppEvent))
      (c.1, AppEvent.updateStatus "说话中..." :: (a.2 ++ b.2 ++ c.2))

/-- `Application.set_device_state`: re-entering the current state returns
immediately; otherwise, when leaving `speaking`, `wait_for_audio_complete`
drains the playback queue, then the state is assigned and logged, the
per-state side effects run, and every `on_state_changed` callback is
invoked (exceptions logged, loop not aborted). -/
def set_device_state (st : AppState) (s : DeviceState) : AppState × List AppEvent :=
  if st.device_state = s then (st, [])
  else
    let drained :=
      if st.device_state = DeviceState.speaking then
        ({ st with audio_queue := [] }, [AppEvent.waitAudioComplete])
      else (st, ([] : List AppEvent))
    let eff := state_effects { drained.1 with device_state := s } s
    (eff.1, drained.2 ++ AppEvent.setState s ::
      (eff.2 ++ callback_events 0 st.callbacks))

/-- `Application._on_network_error`: clear `keep_listening`, force the
device to idle, resume wake-word detection; then — the state having just
been set to idle — the `device_state != CONNECTING` guard necessarily
passes, so the disconnect is logged, the (now no-op) idle assignment runs
again and `close_audio_channel` is submitted when a protocol exists. -/
def on_network_error (st : AppState) (message : String) : AppState × List AppEvent :=
  let a := set_device_state { st with keep_listening := false } DeviceState.idle
  let st2 := { a.1 with wake_paused := false }
  if st2.device_state ≠ DeviceState.connecting then
    let b := set_device_state st2 DeviceState.idle
    let e4 := if b.1.protocol then [AppEvent.closeAudioChannel] else []
    (b.1, a.2 ++ AppEvent.resumeWakeWord :: AppEvent.disconnectDetected ::
      (b.2 ++ e4))
  else (st2, a.2 ++ [AppEvent.resumeWakeWord])

/-- The `while retry_count < max_retries` loop of `Application._reconnect`
together with the post-loop alert and idle transition.  `fuel` is the
number of loop iterations still permitted (`max_retries - retry_count`);
`connect k` is the result of the k-th `protocol.connect()` call. -/
def reconnect_aux (connect : Nat → Bool) : Nat → Nat → List AppEvent × Bool
  | _, 0 =>
      ([AppEvent.alert "连接错误" "无法重新连接到服务器",
        AppEvent.setState DeviceState.idle], false)
  | retry_count, fuel + 1 =>
      if connect retry_count then
        ([AppEvent.connectAttempt retry_count,
          AppEvent.setState DeviceState.idle], true)
      else
        let r := reconnect_aux connect (retry_count + 1) fuel
        (AppEvent.connectAttempt retry_count :: AppEvent.sleepSeconds 2 :: r.1, r.2)

/-- `Application._reconnect` with its `max_retries = 3`. -/
def reconnect (connect : Nat → Bool) : List AppEvent × Bool :=
  reconnect_aux connect 0 3

/-- `Application.abort_speaking`: mark aborted, send the abort message,
force idle; when the reason is the wake word and `keep_listening` holds,
a delayed re-entry into the toggle-listen flow is scheduled. -/
def abort_speaking (st : AppState) (reason : AbortReason) : AppState × List AppEvent :=
  let a := set_device_state { st with aborted := true } DeviceState.idle
  let extra :=
    if reason = AbortReason.wake_word_detected ∧ st.keep_listening then
      [AppEvent.scheduleToggleChat]
    else []
  (a.1, AppEvent.sendAbort reason :: (a.2 ++ extra))

/-- `Application._start_listening_impl`.  `openResult` is the outcome of
the awaited `protocol.open_audio_channel()` call: `some b` is a returned
boolean, `none` is a raised exception. -/
def start_listening_impl (st : AppState) (openResult : Option Bool) :
    AppState × List AppEvent :=
  if st.protocol = false then (st, [])
  else
    let st0 := { st with keep_listening := false, wake_paused := true }
    if st0.device_state = DeviceState.idle then
      let a := set_device_state st0 DeviceState.connecting
      if a.1.channel_opened = false then
        match openResult with
        | some true =>
            let b := set_device_state { a.1 with channel_opened := true }
              DeviceState.listening
            (b.1, AppEvent.pauseWakeWord :: (a.2 ++
              AppEvent.sendStartListening ListeningMode.manual :: b.2))
        | some false =>
            let b := set_device_state a.1 DeviceState.idle
            (b.1, AppEvent.pauseWakeWord :: (a.2 ++
              AppEvent.alert "错误" "打开音频通道失败" :: b.2))
        | none =>
            let b := set_device_state a.1 DeviceState.idle
            (b.1, AppEvent.pauseWakeWord :: (a.2 ++
              AppEvent.alert "错误" "打开音频通道失败: 异常" :: b.2))
      else
        let b := set_device_state a.1 DeviceState.listening
        (b.1, AppEvent.pauseWakeWord :: (a.2 ++
          AppEvent.sendStartListening ListeningMode.manual :: b.2))
    else if st0.device_state = DeviceState.speaking then
      if st0.aborted = false then
        let b := abort_speaking st0 AbortReason.wake_word_detected
        (b.1, AppEvent.pauseWakeWord :: b.2)
      else (st0, [AppEvent.pauseWakeWord])
    else (st0, [AppEvent.pauseWakeWord])

/-- `Application._toggle_chat_state_impl` (the wake-word pause happens in
the caller `toggle_chat_state`, not here).  `openResult` as in
`start_listening_impl`. -/
def toggle_chat_state_impl (st : AppState) (openResult : Option Bool) :
    AppState × List AppEvent :=
  if st.protocol = false then (st, [])
  else if st.device_state = DeviceState.idle then
    let a := set_device_state st DeviceState.connecting
    if a.1.channel_opened = false then
      match openResult with
      | some true =>
          let b := set_device_state
            { a.1 with channel_opened := true, keep_listening := true }
            DeviceState.listening
          (b.1, a.2 ++ AppEvent.sendStartListening ListeningMode.auto_stop :: b.2)
      | some false =>
          let b := set_device_state a.1 DeviceState.idle
          (b.1, a.2 ++ AppEvent.alert "错误" "打开音频通道失败" :: b.2)
      | none =>
          let b := set_device_state a.1 DeviceState.idle
          (b.1, a.2 ++ AppEvent.alert "错误" "打开音频通道失败: 异常" :: b.2)
    else
      let b := set_device_state { a.1 with keep_listening := true }
        DeviceState.listening
      (b.1, a.2 ++ AppEvent.sendStartListening ListeningMode.auto_stop :: b.2)
  else if st.device_state = DeviceState.speaking then
    abort_speaking st AbortReason.no_reason
  else if st.device_state = DeviceState.listening then
    (st, [AppEvent.closeAudioChannel])
  else (st, [])

/-- `Application._handle_tts_start`: clear the aborted flag, drain the
playback queue, then enter `speaking` only from `idle` or `listening`. -/
def handle_tts_start (st : AppState) : AppState × List AppEvent :=
  let st1 := { st with aborted := false, audio_queue := [] }
  if st1.device_state = DeviceState.idle ∨ st1.device_state = DeviceState.listening then
    let a := set_device_state st1 DeviceState.speaking
    (a.1, AppEvent.clearAudioQueue :: a.2)
  else (st1, [AppEvent.clearAudioQueue])

/-- `Application._on_incoming_audio`: enqueue the frame and raise the
output-ready event only while `speaking`; the returned flag records
whether this delivery raised the event. -/
def on_incoming_audio (st : AppState) (data : List Nat) : AppState × Bool :=
  if st.device_state = DeviceState.speaking then
    ({ st with audio_queue := st.audio_queue ++ [data], output_ready := true }, true)
  else (st, false)

/-- A queued dispatcher task, carrying the Python `str(callback)` text the
de-duplication test inspects. -/
structure PyTask where
  str : List Char
deriving DecidableEq, Repr

/-- `needle` occurs at the start of `hay`. -/
def starts_with : List Char → List Char → Bool
  | [], _ => true
  | _ :: _, [] => false
  | a :: as, b :: bs => a = b && starts_with as bs

/-- Python substring test `needle in hay`. -/
def contains_sub (needle : List Char) : List Char → Bool
  | [] => needle.isEmpty
  | c :: rest => starts_with needle (c :: rest) || contains_sub needle rest

/-- The `'abort_speaking' in str(callback)` classification used by
`Application.schedule`. -/
def is_abort_task (t : PyTask) : Bool :=
  contains_sub "abort_speaking".toList t.str

/-- `Application.schedule`: an abort-speaking task is dropped when one is
already pending; every other task is appended. -/
def schedule (queue : List PyTask) (t : PyTask) : List PyTask :=
  if is_abort_task t && queue.any is_abort_task then queue
  else queue ++ [t]

/-- A sequence of `schedule` calls arriving before the queue drains. -/
def schedule_all (queue : List PyTask) (ts : List PyTask) : List PyTask :=
  ts.foldl schedule queue

/-- Events that the per-state branch of `set_device_state` can emit. -/
def is_state_effect : AppEvent → Bool
  | AppEvent.updateStatus _ => true
  | AppEvent.updateEmotion _ => true
  | AppEvent.stopOutputStream => true
  | AppEvent.startOutputStream => true
  | AppEvent.stopInputStream => true
  | AppEvent.startInputStream => true
  | AppEvent.pauseWakeWord => true
  | _ => false

/-- Events that the callback loop of `set_device_state` can emit. -/
def is_cb_event : AppEvent → Bool
  | AppEvent.invokeCallback _ => true
  | AppEvent.logCallbackError _ => true
  | _ => false

/-- Connect attempts in a trace. -/
def is_attempt : AppEvent → Bool
  | AppEvent.connectAttempt _ => true
  | _ => false

/-- Alerts in a trace. -/
def is_alert : AppEvent → Bool
  | AppEvent.alert _ _ => true
  | _ => false

/-- Backoff sleeps in a trace. -/
def is_sleep : AppEvent → Bool
  | AppEvent.sleepSeconds _ => true
  | _ => false

/-- Start-listening sends in a trace. -/
def is_send_start : AppEvent → Bool
  | AppEvent.sendStartListening _ => true
  | _ => false

/-- The device state after the last `set_device_state` call recorded in a
trace. -/
def last_set_state (tr : List AppEvent) : Option DeviceState :=
  (tr.filterMap fun e =>
    match e with
    | AppEvent.setState s => some s
    | _ => none).getLast?

end App

/-! ### Concrete inputs used by the witnesses and counterexamples -/

/-- A 16-byte key as a hex string. -/
def c1_key : List Char := "00112233445566778899aabbccddeeff".toList

/-- A 16-byte base nonce as a hex string. -/
def c1_base : List Char := "000102030405060708090a0b0c0d0e0f".toList

/-- A small audio payload. -/
def c1_payload : List Nat := [1, 2, 3]

/-- A second payload of the same length. -/
def c1_payload2 : List Nat := [250, 0, 77]

/-- A concrete block function standing in for keyed AES. -/
def c1_E : Nat → Nat → Nat := fun k b => k + b

/-- A transport state with an open, keyed session. -/
def c1_state : Mqtt.MqttState :=
  { session_id := some "sess"
    udp_server := "server"
    udp_port := 1234
    aes_key := some c1_key
    aes_nonce := some c1_base
    local_sequence := 0
    remote_sequence := 0
    udp_socket := true
    connected := true
    has_closed_callback := true }

/-- Transport state at the wrap point: the next masked increment splices
`2 ^ 32 - 1` into the nonce. -/
def c2_state : Mqtt.MqttState := { c1_state with local_sequence := 2 ^ 32 - 2 }

/-- An engine state in the middle of a listening session. -/
def c3_state : App.AppState :=
  { device_state := DeviceState.listening
    keep_listening := true
    aborted := false
    protocol := true
    channel_opened := true
    audio_queue := [[1]]
    callbacks := [false]
    input_active := true
    output_active := true
    wake_running := true
    wake_paused := true
    output_ready := false }

/-- An idle engine state with no audio channel open. -/
def c4_state : App.AppState :=
  { device_state := DeviceState.idle
    keep_listening := false
    aborted := false
    protocol := true
    channel_opened := false
    audio_queue := []
    callbacks := [false, true]
    input_active := false
    output_active := false
    wake_running := true
    wake_paused := false
    output_ready := false }

/-- A dispatcher queue holding one pending abort task. -/
def c5_abort_task : App.PyTask :=
  { str := "<bound method Application.abort_speaking of app>".toList }

/-- A non-abort dispatcher task. -/
def c5_other_task : App.PyTask :=
  { str := "<function Application._start_listening_impl>".toList }

/-- An engine state in the middle of TTS playback. -/
def c7_state : App.AppState := { c3_state with device_state := DeviceState.speaking }

/-! ### Supporting lemmas -/

/-- XOR-ing twice with the same keystream is the identity. -/
theorem zipWith_xor_cancel :
    ∀ (p ks : List Nat), ks.length = p.length →
      List.zipWith Nat.xor (List.zipWith Nat.xor p ks) ks = p
  | [], _, _ => by simp
  | _ :: _, [], h => by simp at h
  | a :: p, k :: ks, h => by
    have ih := zipWith_xor_cancel p ks (by simpa using h)
    simp only [List.zipWith_cons_cons, ih]
    exact congrArg (fun x => x :: p) (Nat.xor_cancel_right k a)

/-- CTR decryption inverts CTR encryption under the same key and nonce,
for any block cipher. -/
theorem aes_ctr_roundtrip (E : Nat → Nat → Nat) (key nonce : Nat) (p : List Nat) :
    Mqtt.aes_ctr_decrypt E key nonce (Mqtt.aes_ctr_encrypt E key nonce p) = p := by
  unfold Mqtt.aes_ctr_decrypt Mqtt.aes_ctr_encrypt
  have hl : (List.zipWith Nat.xor p (Mqtt.ctr_keystream E key nonce p.length)).length
      = p.length := by
    simp [Mqtt.ctr_keystream]
  rw [hl]
  exact zipWith_xor_cancel p _ (by simp [Mqtt.ctr_keystream])

/-- The per-state effects keep the device state field. -/
theorem state_effects_device (st : App.AppState) (s : DeviceState) :
    (App.state_effects st s).1.device_state = st.device_state := by
  cases s <;> cases hout : st.output_active <;> cases hin : st.input_active <;>
    cases hw : st.wake_running <;> simp [App.state_effects, hout, hin, hw]

/-- The per-state effects keep the keep-listening flag. -/
theorem state_effects_keep (st : App.AppState) (s : DeviceState) :
    (App.state_effects st s).1.keep_listening = st.keep_listening := by
  cases s <;> cases hout : st.output_active <;> cases hin : st.input_active <;>
    cases hw : st.wake_running <;> simp [App.state_effects, hout, hin, hw]

/-- The per-state effects keep the aborted flag. -/
theorem state_effects_aborted (st : App.AppState) (s : DeviceState) :
    (App.state_effects st s).1.aborted = st.aborted := by
  cases s <;> cases hout : st.output_active <;> cases hin : st.input_active <;>
    cases hw : st.wake_running <;> simp [App.state_effects, hout, hin, hw]

/-- The per-state effects keep the protocol handle. -/
theorem state_effects_protocol (st : App.AppState) (s : DeviceState) :
    (App.state_effects st s).1.protocol = st.protocol := by
  cases s <;> cases hout : st.output_active <;> cases hin : st.input_active <;>
    cases hw : st.wake_running <;> simp [App.state_effects, hout, hin, hw]

/-- The per-state effects keep the channel flag. -/
theorem state_effects_channel (st : App.AppState) (s : DeviceState) :
    (App.state_effects st s).1.channel_opened = st.channel_opened := by
  cases s <;> cases hout : st.output_active <;> cases hin : st.input_active <;>
    cases hw : st.wake_running <;> simp [App.state_effects, hout, hin, hw]

/-- The per-state effects keep the playback queue. -/
theorem state_effects_queue (st : App.AppState) (s : DeviceState) :
    (App.state_effects st s).1.audio_queue = st.audio_queue := by
  cases s <;> cases hout : st.output_active <;> cases hin : st.input_active <;>
    cases hw : st.wake_running <;> simp [App.state_effects, hout, hin, hw]

/-- The per-state effects keep the callback list. -/
theorem state_effects_callbacks (st : App.AppState) (s : DeviceState) :
    (App.state_effects st s).1.callbacks = st.callbacks := by
  cases s <;> cases hout : st.output_active <;> cases hin : st.input_active <;>
    cases hw : st.wake_running <;> simp [App.state_effects, hout, hin, hw]

/-- Every event the per-state effects emit is a state-effect event. -/
theorem state_effects_trace (st : App.AppState) (s : DeviceState) :
    ∀ e ∈ (App.state_effects st s).2, App.is_state_effect e = true := by
  cases s <;> cases hout : st.output_active <;> cases hin : st.input_active <;>
    cases hw : st.wake_running <;>
      simp [App.state_effects, App.is_state_effect, hout, hin, hw]

/-- Every event the callback loop emits is a callback event. -/
theorem callback_events_shape (l : List Bool) :
    ∀ (i : Nat) (e : App.AppEvent),
      e ∈ App.callback_events i l → App.is_cb_event e = true := by
  induction l with
  | nil => intro i e h; simp [App.callback_events] at h
  | cons r rest ih =>
      intro i e h
      cases r <;> simp [App.callback_events] at h <;> rcases h with rfl | h
      · rfl
      · exact ih _ _ h
      · rfl
      · rcases h with rfl | h
        · rfl
        · exact ih _ _ h

/-- Every callback in the list is invoked by the callback loop. -/
theorem callback_events_invoke (l : List Bool) :
    ∀ (i j : Nat), j < l.length →
      App.AppEvent.invokeCallback (i + j) ∈ App.callback_events i l := by
  induction l with
  | nil => intro i j h; simp at h
  | cons r rest ih =>
      intro i j h
      cases j with
      | zero => simp [App.callback_events]
      | succ j =>
          have hmem := ih (i + 1) j (by simpa using h)
          have harith : i + (j + 1) = i + 1 + j := by omega
          simp only [App.callback_events, List.mem_cons, List.mem_append]
          right; right
          rw [harith]
          exact hmem

/-- Every raising callback gets a logged error from the callback loop. -/
theorem callback_events_log (l : List Bool) :
    ∀ (i j : Nat), l.get? j = some true →
      App.AppEvent.logCallbackError (i + j) ∈ App.callback_events i l := by
  induction l with
  | nil => intro i j h; simp at h
  | cons r rest ih =>
      intro i j h
      cases j with
      | zero =>
          simp at h
          subst h
          simp [App.callback_events]
      | succ j =>
          have hmem := ih (i + 1) j (by simpa using h)
          have harith : i + (j + 1) = i + 1 + j := by omega
          simp only [App.callback_events, List.mem_cons, List.mem_append]
          right; right
          rw [harith]
          exact hmem

/-- `set_device_state` always lands in the requested state. -/
theorem sds_device (st : App.AppState) (s : DeviceState) :
    (App.set_device_state st s).1.device_state = s := by
  by_cases h : st.device_state = s
  · simp [App.set_device_state, h]
  · by_cases h2 : st.device_state = DeviceState.speaking
    · have h3 : ¬ (DeviceState.speaking = s) := fun hh => h (h2.trans hh)
      simp [App.set_device_state, h, h2, h3, state_effects_device]
    · simp [App.set_device_state, h, h2, state_effects_device]

/-- `set_device_state` leaves the session flags, protocol handle,
callback list and channel flag alone. -/
theorem sds_frame (st : App.AppState) (s : DeviceState) :
    (App.set_device_state st s).1.keep_listening = st.keep_listening
    ∧ (App.set_device_state st s).1.aborted = st.aborted
    ∧ (App.set_device_state st s).1.protocol = st.protocol
    ∧ (App.set_device_state st s).1.channel_opened = st.channel_opened
    ∧ (App.set_device_state st s).1.callbacks = st.callbacks := by
  by_cases h : st.device_state = s
  · simp [App.set_device_state, h]
  · by_cases h2 : st.device_state = DeviceState.speaking
    · have h3 : ¬ (DeviceState.speaking = s) := fun hh => h (h2.trans hh)
      simp [App.set_device_state, h, h2, h3, state_effects_keep,
        state_effects_aborted, state_effects_protocol, state_effects_channel,
        state_effects_callbacks]
    · simp [App.set_device_state, h, h2, state_effects_keep,
        state_effects_aborted, state_effects_protocol, state_effects_channel,
        state_effects_callbacks]

/-- `set_device_state` does not touch the playback queue unless it leaves
the `speaking` state. -/
theorem sds_queue (st : App.AppState) (s : DeviceState)
    (h : st.device_state ≠ DeviceState.speaking) :
    (App.set_device_state st s).1.audio_queue = st.audio_queue := by
  by_cases heq : st.device_state = s
  · simp [App.set_device_state, heq]
  · simp [App.set_device_state, heq, h, state_effects_queue]

/-- Classification of the events a `set_device_state` call can emit. -/
theorem sds_trace (st : App.AppState) (s : DeviceState) (e : App.AppEvent)
    (he : e ∈ (App.set_device_state st s).2) :
    e = App.AppEvent.waitAudioComplete ∨ e = App.AppEvent.setState s
    ∨ App.is_state_effect e = true ∨ App.is_cb_event e = true := by
  by_cases h : st.device_state = s
  · simp [App.set_device_state, h] at he
  · by_cases h2 : st.device_state = DeviceState.speaking
    · have h3 : ¬ (DeviceState.speaking = s) := fun hh => h (h2.trans hh)
      simp [App.set_device_state, h, h2, h3] at he
      rcases he with rfl | rfl | he | he
      · exact Or.inl rfl
      · exact Or.inr (Or.inl rfl)
      · exact Or.inr (Or.inr (Or.inl (state_effects_trace _ s e he)))
      · exact Or.inr (Or.inr (Or.inr (callback_events_shape _ 0 e he)))
    · simp [App.set_device_state, h, h2] at he
      rcases he with rfl | he | he
      · exact Or.inr (Or.inl rfl)
      · exact Or.inr (Or.inr (Or.inl (state_effects_trace _ s e he)))
      · exact Or.inr (Or.inr (Or.inr (callback_events_shape _ 0 e he)))

/-- Re-entering the current state is a no-op. -/
theorem sds_noop (st : App.AppState) (s : DeviceState)
    (h : st.device_state = s) : App.set_device_state st s = (st, []) := by
  simp [App.set_device_state, h]

/-- `set_device_state` keeps the channel flag (projection form). -/
theorem sds_channel (st : App.AppState) (s : DeviceState) :
    (App.set_device_state st s).1.channel_opened = st.channel_opened :=
  (sds_frame st s).2.2.2.1

/-- `set_device_state` keeps the keep-listening flag (projection form). -/
theorem sds_keep (st : App.AppState) (s : DeviceState) :
    (App.set_device_state st s).1.keep_listening = st.keep_listening :=
  (sds_frame st s).1

/-- `set_device_state` keeps the protocol handle (projection form). -/
theorem sds_protocol (st : App.AppState) (s : DeviceState) :
    (App.set_device_state st s).1.protocol = st.protocol :=
  (sds_frame st s).2.2.1

/-- `set_device_state` keeps the callback list (projection form). -/
theorem sds_callbacks (st : App.AppState) (s : DeviceState) :
    (App.set_device_state st s).1.callbacks = st.callbacks :=
  (sds_frame st s).2.2.2.2

/-- A non-idempotent `set_device_state` records the state assignment. -/
theorem sds_setState_present (st : App.AppState) (s : DeviceState)
    (h : st.device_state ≠ s) :
    App.AppEvent.setState s ∈ (App.set_device_state st s).2 := by
  by_cases h2 : st.device_state = DeviceState.speaking
  · have h3 : ¬ (DeviceState.speaking = s) := fun hh => h (h2.trans hh)
    simp [App.set_device_state, h, h2, h3]
  · simp [App.set_device_state, h, h2]

/-- The only `setState` events a `set_device_state` call emits are for its
own target state. -/
theorem sds_setState_mem (st : App.AppState) (s s2 : DeviceState)
    (h : App.AppEvent.setState s2 ∈ (App.set_device_state st s).2) : s2 = s := by
  rcases sds_trace st s _ h with h1 | h1 | h1 | h1 <;>
    simp_all [App.is_state_effect, App.is_cb_event]

/-- A `set_device_state` call towards a non-listening state never records
entering the listening state. -/
theorem sds_no_listening (st : App.AppState) (s : DeviceState)
    (hne : s ≠ DeviceState.listening) :
    App.AppEvent.setState DeviceState.listening ∉ (App.set_device_state st s).2 :=
  fun hmem => hne (sds_setState_mem st s DeviceState.listening hmem).symm

/-- A `set_device_state` call emits no alert. -/
theorem sds_no_alert (st : App.AppState) (s : DeviceState) :
    (App.set_device_state st s).2.countP App.is_alert = 0 := by
  rw [List.countP_eq_zero]
  intro e he
  rcases sds_trace st s e he with rfl | rfl | h | h
  · simp [App.is_alert]
  · simp [App.is_alert]
  · cases e <;> simp_all [App.is_state_effect, App.is_alert]
  · cases e <;> simp_all [App.is_cb_event, App.is_alert]

/-- A `set_device_state` call sends no start-listening message. -/
theorem sds_no_send_start (st : App.AppState) (s : DeviceState) :
    (App.set_device_state st s).2.countP App.is_send_start = 0 := by
  rw [List.countP_eq_zero]
  intro e he
  rcases sds_trace st s e he with rfl | rfl | h | h
  · simp [App.is_send_start]
  · simp [App.is_send_start]
  · cases e <;> simp_all [App.is_state_effect, App.is_send_start]
  · cases e <;> simp_all [App.is_cb_event, App.is_send_start]

/-! ### C1 -/

/-- C1: For every base nonce, payload of 0–4096 bytes and sequence counter
value, the per-packet nonce that `MqttProtocol.send_audio` prepends to the
datagram is exactly `derive_nonce` of (base nonce, payload length, masked
sequence counter) — in particular it depends on the payload only through
its length — and `aes_ctr_decrypt` with the same key and derived nonce
inverts `aes_ctr_encrypt` on the payload. -/
theorem c1_split_transport_nonce_roundtrip (E : Nat → Nat → Nat)
    (st : Mqtt.MqttState) (key base : List Char) (p q : List Nat)
    (hkey : st.aes_key = some key) (hnonce : st.aes_nonce = some base)
    (hsock : st.udp_socket = true) (hserver : st.udp_server ≠ "")
    (hport : st.udp_port ≠ 0) (hlen : p.length ≤ 4096)
    (hq : q.length = p.length) :
    (Mqtt.send_audio E st p).2 =
      some (Mqtt.fromHex (Mqtt.derive_nonce base p.length
          ((st.local_sequence + 1) % 2 ^ 32)) ++
        Mqtt.aes_ctr_encrypt E (Mqtt.hexToNat key)
          (Mqtt.hexToNat (Mqtt.derive_nonce base p.length
            ((st.local_sequence + 1) % 2 ^ 32))) p)
    ∧ Mqtt.derive_nonce base q.length ((st.local_sequence + 1) % 2 ^ 32) =
        Mqtt.derive_nonce base p.length ((st.local_sequence + 1) % 2 ^ 32)
    ∧ Mqtt.aes_ctr_decrypt E (Mqtt.hexToNat key)
        (Mqtt.hexToNat (Mqtt.derive_nonce base p.length
          ((st.local_sequence + 1) % 2 ^ 32)))
        (Mqtt.aes_ctr_encrypt E (Mqtt.hexToNat key)
          (Mqtt.hexToNat (Mqtt.derive_nonce base p.length
            ((st.local_sequence + 1) % 2 ^ 32))) p) = p := by
  refine ⟨?_, by rw [hq], aes_ctr_roundtrip _ _ _ _⟩
  simp [Mqtt.send_audio, hkey, hnonce, hsock, hserver, hport]

/-- Witness for C1 at a concrete transport state and payload. -/
theorem c1_witness :
    (c1_state.aes_key = some c1_key ∧ c1_state.aes_nonce = some c1_base
      ∧ c1_state.udp_socket = true ∧ c1_state.udp_server ≠ ""
      ∧ c1_state.udp_port ≠ 0 ∧ c1_payload.length ≤ 4096
      ∧ c1_payload2.length = c1_payload.length)
    ∧ ((Mqtt.send_audio c1_E c1_state c1_payload).2 =
        some (Mqtt.fromHex (Mqtt.derive_nonce c1_base c1_payload.length 1) ++
          Mqtt.aes_ctr_encrypt c1_E (Mqtt.hexToNat c1_key)
            (Mqtt.hexToNat (Mqtt.derive_nonce c1_base c1_payload.length 1))
            c1_payload)
      ∧ Mqtt.derive_nonce c1_base c1_payload2.length 1 =
          Mqtt.derive_nonce c1_base c1_payload.length 1
      ∧ Mqtt.aes_ctr_decrypt c1_E (Mqtt.hexToNat c1_key)
          (Mqtt.hexToNat (Mqtt.derive_nonce c1_base c1_payload.length 1))
          (Mqtt.aes_ctr_encrypt c1_E (Mqtt.hexToNat c1_key)
            (Mqtt.hexToNat (Mqtt.derive_nonce c1_base c1_payload.length 1))
            c1_payload) = c1_payload) :=
  ⟨⟨rfl, rfl, rfl, by decide, by decide, by decide, rfl⟩,
    c1_split_transport_nonce_roundtrip c1_E c1_state c1_key c1_base
      c1_payload c1_payload2 rfl rfl rfl (by decide) (by decide)
      (by decide) rfl⟩

/-! ### C2 -/

/-- Counterexample to C2 as stated: from a state whose counter is
`2 ^ 32 - 2`, one successful `send_audio` splices `2 ^ 32 - 1` into the
nonce but leaves the stored counter at `2 ^ 32` (it advanced by two, not
one, and left the 32-bit range), and the following packet splices `1`,
not `0`; moreover `_handle_goodbye` resets the counter without any fresh
handshake. -/
theorem c2_counterexample :
    (Mqtt.send_audio c1_E c2_state []).2 =
      some (Mqtt.fromHex (Mqtt.derive_nonce c1_base 0 (2 ^ 32 - 1)))
    ∧ (Mqtt.send_audio c1_E c2_state []).1.local_sequence = 2 ^ 32
    ∧ 2 ^ 32 ≠ 2 ^ 32 - 2 + 1
    ∧ ¬ (Mqtt.send_audio c1_E c2_state []).1.local_sequence < 2 ^ 32
    ∧ (Mqtt.send_audio c1_E (Mqtt.send_audio c1_E c2_state []).1 []).2 =
        some (Mqtt.fromHex (Mqtt.derive_nonce c1_base 0 1))
    ∧ (1 : Nat) ≠ 0
    ∧ (Mqtt.handle_goodbye { c1_state with local_sequence := 5 }).1.local_sequence = 0
    ∧ (5 : Nat) ≠ 0 := by
  decide

/-- C2 (amended): each successful `send_audio` splices the masked value
`(previous counter + 1) % 2 ^ 32` into the nonce but advances the stored
counter by two — a masked pre-increment plus an unmasked post-increment —
so the stored value is the masked value plus one (momentarily `2 ^ 32`
when the spliced value was `2 ^ 32 - 1`, after which the next spliced
value is `1`); the counter is reset to `0` both by a fresh server hello
and by the goodbye teardown. -/
theorem c2_sequence_counter_amended (E : Nat → Nat → Nat)
    (st : Mqtt.MqttState) (key base : List Char) (p : List Nat)
    (sid server : String) (port : Nat) (hk hn : List Char)
    (hkey : st.aes_key = some key) (hnonce : st.aes_nonce = some base)
    (hsock : st.udp_socket = true) (hserver : st.udp_server ≠ "")
    (hport : st.udp_port ≠ 0) :
    (Mqtt.send_audio E st p).1.local_sequence =
      (st.local_sequence + 1) % 2 ^ 32 + 1
    ∧ (Mqtt.send_audio E st p).2 =
        some (Mqtt.fromHex (Mqtt.derive_nonce base p.length
            ((st.local_sequence + 1) % 2 ^ 32)) ++
          Mqtt.aes_ctr_encrypt E (Mqtt.hexToNat key)
            (Mqtt.hexToNat (Mqtt.derive_nonce base p.length
              ((st.local_sequence + 1) % 2 ^ 32))) p)
    ∧ (Mqtt.handle_goodbye st).1.local_sequence = 0
    ∧ (Mqtt.handle_hello_message st sid server port hk hn).local_sequence = 0 := by
  refine ⟨?_, ?_, rfl, rfl⟩ <;>
    simp [Mqtt.send_audio, hkey, hnonce, hsock, hserver, hport]

/-- Witness for the amended C2 at a concrete transport state. -/
theorem c2_amended_witness :
    (c1_state.aes_key = some c1_key ∧ c1_state.aes_nonce = some c1_base
      ∧ c1_state.udp_socket = true ∧ c1_state.udp_server ≠ ""
      ∧ c1_state.udp_port ≠ 0)
    ∧ ((Mqtt.send_audio c1_E c1_state c1_payload).1.local_sequence = 2
      ∧ (Mqtt.send_audio c1_E c1_state c1_payload).2 =
          some (Mqtt.fromHex (Mqtt.derive_nonce c1_base c1_payload.length 1) ++
            Mqtt.aes_ctr_encrypt c1_E (Mqtt.hexToNat c1_key)
              (Mqtt.hexToNat (Mqtt.derive_nonce c1_base c1_payload.length 1))
              c1_payload)
      ∧ (Mqtt.handle_goodbye c1_state).1.local_sequence = 0
      ∧ (Mqtt.handle_hello_message c1_state "s2" "srv2" 9 c1_key
          c1_base).local_sequence = 0) :=
  ⟨⟨rfl, rfl, rfl, by decide, by decide⟩,
    c2_sequence_counter_amended c1_E c1_state c1_key c1_base c1_payload
      "s2" "srv2" 9 c1_key c1_base rfl rfl rfl (by decide) (by decide)⟩

/-! ### C6 -/

/-- C6: a goodbye whose session id is non-empty and differs from the
stored one is ignored — the state (session, crypto, socket) is unchanged,
`on_audio_channel_closed` is not invoked, and the channel still reports
open — whereas a goodbye with an absent, empty or matching session id
tears the session down, invokes the callback and closes the channel. -/
theorem c6_goodbye_session_filter (st : Mqtt.MqttState) (x y : String)
    (hx : x ≠ "") (hcur : st.session_id = some y) (hxy : x ≠ y)
    (hopen : st.udp_socket = true) (hcb : st.has_closed_callback = true) :
    Mqtt.handle_goodbye_message st (some x) = (st, false)
    ∧ Mqtt.is_audio_channel_opened (Mqtt.handle_goodbye_message st (some x)).1 = true
    ∧ Mqtt.handle_goodbye_message st none = Mqtt.handle_goodbye st
    ∧ Mqtt.handle_goodbye_message st (some "") = Mqtt.handle_goodbye st
    ∧ Mqtt.handle_goodbye_message st (some y) = Mqtt.handle_goodbye st
    ∧ (Mqtt.handle_goodbye st).2 = true
    ∧ Mqtt.is_audio_channel_opened (Mqtt.handle_goodbye st).1 = false := by
  have hmm : Mqtt.handle_goodbye_message st (some x) = (st, false) := by
    simp [Mqtt.handle_goodbye_message, Mqtt.py_falsy, Mqtt.py_eq_sid, hcur, hx, hxy]
  refine ⟨hmm, ?_, ?_, ?_, ?_, ?_, rfl⟩
  · rw [hmm]; exact hopen
  · simp [Mqtt.handle_goodbye_message, Mqtt.py_falsy]
  · simp [Mqtt.handle_goodbye_message, Mqtt.py_falsy]
  · simp [Mqtt.handle_goodbye_message, Mqtt.py_falsy, Mqtt.py_eq_sid, hcur]
  · simp [Mqtt.handle_goodbye, hcb]

/-- Witness for C6 at a concrete open session. -/
theorem c6_witness :
    (("X" : String) ≠ "" ∧ c1_state.session_id = some "sess"
      ∧ ("X" : String) ≠ "sess" ∧ c1_state.udp_socket = true
      ∧ c1_state.has_closed_callback = true)
    ∧ (Mqtt.handle_goodbye_message c1_state (some "X") = (c1_state, false)
      ∧ Mqtt.is_audio_channel_opened
          (Mqtt.handle_goodbye_message c1_state (some "X")).1 = true
      ∧ Mqtt.handle_goodbye_message c1_state none = Mqtt.handle_goodbye c1_state
      ∧ Mqtt.handle_goodbye_message c1_state (some "") =
          Mqtt.handle_goodbye c1_state
      ∧ Mqtt.handle_goodbye_message c1_state (some "sess") =
          Mqtt.handle_goodbye c1_state
      ∧ (Mqtt.handle_goodbye c1_state).2 = true
      ∧ Mqtt.is_audio_channel_opened (Mqtt.handle_goodbye c1_state).1 = false) :=
  ⟨⟨by decide, rfl, by decide, rfl, rfl⟩,
    c6_goodbye_session_filter c1_state "X" "sess" (by decide) rfl
      (by decide) rfl rfl⟩

/-! ### C3 -/

/-- Counterexample to C3 as stated: `_on_network_error` — the only code
that runs when a network error is reported — performs no bounded
reconnect at all: its trace holds zero connect attempts (the claim
requires three for an all-failing run) and zero alerts.  The retry
routine `_reconnect` is reachable only from `_attempt_reconnect`, which
no code calls. -/
theorem c3_counterexample :
    (App.on_network_error c3_state "network down").2.countP App.is_attempt = 0
    ∧ (App.on_network_error c3_state "network down").2.countP App.is_alert = 0
    ∧ (0 : Nat) ≠ 3 := by
  decide

/-- C3 (amended): the `_reconnect` routine itself — were it invoked —
performs exactly 3 connect attempts with a 2-second sleep after each
failure when every attempt fails, schedules exactly one terminal alert
and lands in idle; when some attempt succeeds it stops at the first
success, raises no alert and lands in idle.  However, `_on_network_error`
never invokes it (see the counterexample), so no reconnect happens on a
network error. -/
theorem c3_reconnect_policy_amended (connect : Nat → Bool) :
    ((connect 0 = false ∧ connect 1 = false ∧ connect 2 = false) →
      (App.reconnect connect).1.countP App.is_attempt = 3
      ∧ (App.reconnect connect).1.countP App.is_alert = 1
      ∧ (App.reconnect connect).1.countP App.is_sleep = 3
      ∧ App.last_set_state (App.reconnect connect).1 = some DeviceState.idle
      ∧ (App.reconnect connect).2 = false)
    ∧ ((connect 0 = true ∨ connect 1 = true ∨ connect 2 = true) →
      (App.reconnect connect).1.countP App.is_alert = 0
      ∧ App.last_set_state (App.reconnect connect).1 = some DeviceState.idle
      ∧ (App.reconnect connect).2 = true) := by
  constructor
  · rintro ⟨h0, h1, h2⟩
    simp [App.reconnect, App.reconnect_aux, h0, h1, h2, App.is_attempt,
      App.is_alert, App.is_sleep, App.last_set_state, List.countP_cons]
  · intro h
    cases hc0 : connect 0 <;> cases hc1 : connect 1 <;> cases hc2 : connect 2 <;>
      simp_all [App.reconnect, App.reconnect_aux, App.is_alert,
        App.last_set_state, List.countP_cons]

/-- Witness for the amended C3: one all-failing run and one run whose
second attempt succeeds. -/
theorem c3_amended_witness :
    (((fun _ => false : Nat → Bool) 0 = false
        ∧ (fun _ => false : Nat → Bool) 1 = false
        ∧ (fun _ => false : Nat → Bool) 2 = false)
      ∧ (App.reconnect (fun _ => false)).1.countP App.is_attempt = 3
      ∧ (App.reconnect (fun _ => false)).1.countP App.is_alert = 1
      ∧ (App.reconnect (fun _ => false)).1.countP App.is_sleep = 3
      ∧ App.last_set_state (App.reconnect (fun _ => false)).1 =
          some DeviceState.idle
      ∧ (App.reconnect (fun _ => false)).2 = false)
    ∧ (((fun k => k == 1 : Nat → Bool) 0 = true
        ∨ (fun k => k == 1 : Nat → Bool) 1 = true
        ∨ (fun k => k == 1 : Nat → Bool) 2 = true)
      ∧ (App.reconnect (fun k => k == 1)).1.countP App.is_alert = 0
      ∧ App.last_set_state (App.reconnect (fun k => k == 1)).1 =
          some DeviceState.idle
      ∧ (App.reconnect (fun k => k == 1)).2 = true) :=
  ⟨⟨by decide,
      (c3_reconnect_policy_amended (fun _ => false)).1 (by decide)⟩,
    ⟨by decide,
      (c3_reconnect_policy_amended (fun k => k == 1)).2 (by decide)⟩⟩

/-! ### C4 -/

/-- C4: a listen request starting in idle (via `_start_listening_impl` or
`_toggle_chat_state_impl`) whose `open_audio_channel` call returns false
(`some false`) or raises (`none`) lands back in idle, surfaces exactly
one alert, sends no start-listening message, and never enters the
listening state. -/
theorem c4_failed_channel_open_returns_idle (st : App.AppState)
    (r : Option Bool) (hp : st.protocol = true)
    (hs : st.device_state = DeviceState.idle)
    (hc : st.channel_opened = false) (hr : r = some false ∨ r = none) :
    ((App.start_listening_impl st r).1.device_state = DeviceState.idle
      ∧ (App.start_listening_impl st r).2.countP App.is_alert = 1
      ∧ (App.start_listening_impl st r).2.countP App.is_send_start = 0
      ∧ App.AppEvent.setState DeviceState.listening ∉
          (App.start_listening_impl st r).2)
    ∧ ((App.toggle_chat_state_impl st r).1.device_state = DeviceState.idle
      ∧ (App.toggle_chat_state_impl st r).2.countP App.is_alert = 1
      ∧ (App.toggle_chat_state_impl st r).2.countP App.is_send_start = 0
      ∧ App.AppEvent.setState DeviceState.listening ∉
          (App.toggle_chat_state_impl st r).2) := by
  obtain ⟨ds, kl, ab, pr, ch, aq, cb, ia, oa, wr, wp, og⟩ := st
  replace hp : pr = true := hp
  replace hs : ds = DeviceState.idle := hs
  replace hc : ch = false := hc
  subst hp
  subst hs
  subst hc
  rcases hr with rfl | rfl
  · refine ⟨⟨?_, ?_, ?_, ?_⟩, ⟨?_, ?_, ?_, ?_⟩⟩
    · simp [App.start_listening_impl, sds_channel, sds_device]
    · simp [App.start_listening_impl, sds_channel, List.countP_append,
        List.countP_cons, App.is_alert, sds_no_alert]
    · simp [App.start_listening_impl, sds_channel, List.countP_append,
        List.countP_cons, App.is_send_start, sds_no_send_start]
    · intro hmem
      simp [App.start_listening_impl, sds_channel, List.mem_cons,
        List.mem_append] at hmem
      rcases hmem with hmem | hmem
      · exact sds_no_listening _ _ (by simp) hmem
      · exact sds_no_listening _ _ (by simp) hmem
    · simp [App.toggle_chat_state_impl, sds_channel, sds_device]
    · simp [App.toggle_chat_state_impl, sds_channel, List.countP_append,
        List.countP_cons, App.is_alert, sds_no_alert]
    · simp [App.toggle_chat_state_impl, sds_channel, List.countP_append,
        List.countP_cons, App.is_send_start, sds_no_send_start]
    · intro hmem
      simp [App.toggle_chat_state_impl, sds_channel, List.mem_cons,
        List.mem_append] at hmem
      rcases hmem with hmem | hmem
      · exact sds_no_listening _ _ (by simp) hmem
      · exact sds_no_listening _ _ (by simp) hmem
  · refine ⟨⟨?_, ?_, ?_, ?_⟩, ⟨?_, ?_, ?_, ?_⟩⟩
    · simp [App.start_listening_impl, sds_channel, sds_device]
    · simp [App.start_listening_impl, sds_channel, List.countP_append,
        List.countP_cons, App.is_alert, sds_no_alert]
    · simp [App.start_listening_impl, sds_channel, List.countP_append,
        List.countP_cons, App.is_send_start, sds_no_send_start]
    · intro hmem
      simp [App.start_listening_impl, sds_channel, List.mem_cons,
        List.mem_append] at hmem
      rcases hmem with hmem | hmem
      · exact sds_no_listening _ _ (by simp) hmem
      · exact sds_no_listening _ _ (by simp) hmem
    · simp [App.toggle_chat_state_impl, sds_channel, sds_device]
    · simp [App.toggle_chat_state_impl, sds_channel, List.countP_append,
        List.countP_cons, App.is_alert, sds_no_alert]
    · simp [App.toggle_chat_state_impl, sds_channel, List.countP_append,
        List.countP_cons, App.is_send_start, sds_no_send_start]
    · intro hmem
      simp [App.toggle_chat_state_impl, sds_channel, List.mem_cons,
        List.mem_append] at hmem
      rcases hmem with hmem | hmem
      · exact sds_no_listening _ _ (by simp) hmem
      · exact sds_no_listening _ _ (by simp) hmem

/-- Witness for C4 at a concrete idle state whose channel-open call
returns false. -/
theorem c4_witness :
    (c4_state.protocol = true ∧ c4_state.device_state = DeviceState.idle
      ∧ c4_state.channel_opened = false
      ∧ ((some false : Option Bool) = some false
          ∨ (some false : Option Bool) = none))
    ∧ (((App.start_listening_impl c4_state (some false)).1.device_state =
          DeviceState.idle
      ∧ (App.start_listening_impl c4_state (some false)).2.countP
          App.is_alert = 1
      ∧ (App.start_listening_impl c4_state (some false)).2.countP
          App.is_send_start = 0
      ∧ App.AppEvent.setState DeviceState.listening ∉
          (App.start_listening_impl c4_state (some false)).2)
    ∧ ((App.toggle_chat_state_impl c4_state (some false)).1.device_state =
          DeviceState.idle
      ∧ (App.toggle_chat_state_impl c4_state (some false)).2.countP
          App.is_alert = 1
      ∧ (App.toggle_chat_state_impl c4_state (some false)).2.countP
          App.is_send_start = 0
      ∧ App.AppEvent.setState DeviceState.listening ∉
          (App.toggle_chat_state_impl c4_state (some false)).2)) :=
  ⟨⟨rfl, rfl, rfl, Or.inl rfl⟩,
    c4_failed_channel_open_returns_idle c4_state (some false) rfl rfl rfl
      (Or.inl rfl)⟩

/-! ### C5 -/

/-- One `schedule` call keeps the pending-abort count at most one. -/
theorem schedule_abort_count (q : List App.PyTask) (t : App.PyTask)
    (h : q.countP App.is_abort_task ≤ 1) :
    (App.schedule q t).countP App.is_abort_task ≤ 1 := by
  unfold App.schedule
  by_cases ha : App.is_abort_task t
  · by_cases hq : q.any App.is_abort_task
    · simp [ha, hq, h]
    · have hz : q.countP App.is_abort_task = 0 := by
        rw [List.countP_eq_zero]
        intro a haq hpa
        exact hq (List.any_eq_true.mpr ⟨a, haq, hpa⟩)
      simp [ha, hq, List.countP_append, List.countP_cons, hz]
  · simp [ha, List.countP_append, List.countP_cons, h]

/-- Any `schedule` sequence keeps the pending-abort count at most one. -/
theorem schedule_all_abort_count (ts : List App.PyTask) :
    ∀ q : List App.PyTask, q.countP App.is_abort_task ≤ 1 →
      (App.schedule_all q ts).countP App.is_abort_task ≤ 1 := by
  induction ts with
  | nil => intro q h; exact h
  | cons t ts ih =>
      intro q h
      simp only [App.schedule_all] at ih ⊢
      simp only [List.foldl_cons]
      exact ih _ (schedule_abort_count q t h)

/-- C5: an abort-speaking task is not enqueued while one is pending (the
queue is unchanged), every non-abort task is appended, and any sequence
of schedule calls on a queue holding at most one pending abort leaves at
most one abort to execute when the queue drains. -/
theorem c5_schedule_abort_dedup (queue : List App.PyTask) (t : App.PyTask)
    (ts : List App.PyTask) :
    (App.is_abort_task t = true → queue.any App.is_abort_task = true →
      App.schedule queue t = queue)
    ∧ (App.is_abort_task t = false →
        App.schedule queue t = queue ++ [t])
    ∧ (queue.countP App.is_abort_task ≤ 1 →
        (App.schedule_all queue ts).countP App.is_abort_task ≤ 1) :=
  ⟨fun ha hq => by simp [App.schedule, ha, hq],
    fun ha => by simp [App.schedule, ha],
    fun h => schedule_all_abort_count ts queue h⟩

/-- Witness for C5: a duplicate abort is dropped, a non-abort task is
appended, and a drain after mixed submissions executes at most one
abort. -/
theorem c5_witness :
    (App.is_abort_task c5_abort_task = true
      ∧ [c5_abort_task].any App.is_abort_task = true
      ∧ App.schedule [c5_abort_task] c5_abort_task = [c5_abort_task]
      ∧ ([c5_abort_task] : List App.PyTask).countP App.is_abort_task ≤ 1
      ∧ (App.schedule_all [c5_abort_task]
          [c5_abort_task, c5_other_task]).countP App.is_abort_task ≤ 1)
    ∧ (App.is_abort_task c5_other_task = false
      ∧ App.schedule [c5_abort_task] c5_other_task =
          [c5_abort_task] ++ [c5_other_task]) :=
  ⟨⟨by decide, by decide,
      (c5_schedule_abort_dedup [c5_abort_task] c5_abort_task
        [c5_abort_task, c5_other_task]).1 (by decide) (by decide),
      by decide,
      (c5_schedule_abort_dedup [c5_abort_task] c5_abort_task
        [c5_abort_task, c5_other_task]).2.2 (by decide)⟩,
    ⟨by decide,
      (c5_schedule_abort_dedup [c5_abort_task] c5_other_task []).2.1
        (by decide)⟩⟩

/-! ### C7 -/

/-- C7: a TTS-start message first drains the playback queue and then —
only from idle or listening — enters the speaking state; from any other
state the queue is still drained and the state is unchanged. -/
theorem c7_tts_start_clears_then_speaks (st : App.AppState) :
    (App.handle_tts_start st).1.audio_queue = []
    ∧ ((st.device_state = DeviceState.idle
        ∨ st.device_state = DeviceState.listening) →
        (App.handle_tts_start st).1.device_state = DeviceState.speaking
        ∧ (App.handle_tts_start st).2.head? =
            some App.AppEvent.clearAudioQueue
        ∧ App.AppEvent.setState DeviceState.speaking ∈
            (App.handle_tts_start st).2)
    ∧ ((st.device_state ≠ DeviceState.idle
        ∧ st.device_state ≠ DeviceState.listening) →
        (App.handle_tts_start st).1.device_state = st.device_state
        ∧ (App.handle_tts_start st).2 = [App.AppEvent.clearAudioQueue]) := by
  obtain ⟨ds, kl, ab, pr, ch, aq, cb, ia, oa, wr, wp, og⟩ := st
  by_cases hcond : ds = DeviceState.idle ∨ ds = DeviceState.listening
  · have hq := sds_queue
      (⟨ds, kl, false, pr, ch, [], cb, ia, oa, wr, wp, og⟩ : App.AppState)
      DeviceState.speaking
      (by rcases hcond with rfl | rfl <;> simp)
    have hpres := sds_setState_present
      (⟨ds, kl, false, pr, ch, [], cb, ia, oa, wr, wp, og⟩ : App.AppState)
      DeviceState.speaking
      (by rcases hcond with rfl | rfl <;> simp)
    refine ⟨?_, fun _ => ⟨?_, ?_, ?_⟩,
      fun hn => absurd hcond (not_or.mpr hn)⟩
    · simp [App.handle_tts_start, hcond, hq]
    · simp [App.handle_tts_start, hcond, sds_device]
    · simp [App.handle_tts_start, hcond]
    · simp [App.handle_tts_start, hcond]
      exact hpres
  · have h1 : ds ≠ DeviceState.idle := fun h => hcond (Or.inl h)
    have h2 : ds ≠ DeviceState.listening := fun h => hcond (Or.inr h)
    refine ⟨?_, fun hcc => absurd hcc hcond, fun _ => ⟨?_, ?_⟩⟩ <;>
      simp [App.handle_tts_start, h1, h2]

/-- Witness for C7: a listening state with a non-empty queue enters
speaking after the queue is drained; a speaking state only drains. -/
theorem c7_witness :
    ((App.handle_tts_start c3_state).1.audio_queue = []
      ∧ (App.handle_tts_start c3_state).1.device_state = DeviceState.speaking
      ∧ (App.handle_tts_start c3_state).2.head? =
          some App.AppEvent.clearAudioQueue
      ∧ App.AppEvent.setState DeviceState.speaking ∈
          (App.handle_tts_start c3_state).2)
    ∧ ((App.handle_tts_start c7_state).1.audio_queue = []
      ∧ (App.handle_tts_start c7_state).1.device_state =
          c7_state.device_state
      ∧ (App.handle_tts_start c7_state).2 =
          [App.AppEvent.clearAudioQueue]) :=
  ⟨⟨(c7_tts_start_clears_then_speaks c3_state).1,
      ((c7_tts_start_clears_then_speaks c3_state).2.1 (Or.inr rfl)).1,
      ((c7_tts_start_clears_then_speaks c3_state).2.1 (Or.inr rfl)).2.1,
      ((c7_tts_start_clears_then_speaks c3_state).2.1 (Or.inr rfl)).2.2⟩,
    ⟨(c7_tts_start_clears_then_speaks c7_state).1,
      ((c7_tts_start_clears_then_speaks c7_state).2.2
        ⟨by decide, by decide⟩).1,
      ((c7_tts_start_clears_then_speaks c7_state).2.2
        ⟨by decide, by decide⟩).2⟩⟩

/-! ### C8 -/

/-- C8: re-entering the current state is a complete no-op (state record
untouched, no side effect, no callback invoked); an actual transition
assigns the target state and invokes every registered callback, with a
raising callback logged and neither the assignment nor the remaining
callbacks skipped. -/
theorem c8_set_device_state_noop_and_callbacks (st : App.AppState)
    (s : DeviceState) (i : Nat) :
    (st.device_state = s → App.set_device_state st s = (st, []))
    ∧ (st.device_state ≠ s →
        (App.set_device_state st s).1.device_state = s)
    ∧ (st.device_state ≠ s → i < st.callbacks.length →
        App.AppEvent.invokeCallback i ∈ (App.set_device_state st s).2)
    ∧ (st.device_state ≠ s → st.callbacks.get? i = some true →
        App.AppEvent.logCallbackError i ∈ (App.set_device_state st s).2) := by
  refine ⟨fun h => sds_noop st s h, fun _ => sds_device st s, ?_, ?_⟩
  · intro h hi
    have hmem := callback_events_invoke st.callbacks 0 i hi
    rw [Nat.zero_add] at hmem
    by_cases h2 : st.device_state = DeviceState.speaking
    · have h3 : ¬ (DeviceState.speaking = s) := fun hh => h (h2.trans hh)
      simp [App.set_device_state, h, h2, h3]
      tauto
    · simp [App.set_device_state, h, h2]
      tauto
  · intro h hi
    have hmem := callback_events_log st.callbacks 0 i hi
    rw [Nat.zero_add] at hmem
    by_cases h2 : st.device_state = DeviceState.speaking
    · have h3 : ¬ (DeviceState.speaking = s) := fun hh => h (h2.trans hh)
      simp [App.set_device_state, h, h2, h3]
      tauto
    · simp [App.set_device_state, h, h2]
      tauto

/-- Witness for C8: re-entering `listening` is a no-op; transitioning to
`connecting` invokes both callbacks and logs the raising one. -/
theorem c8_witness :
    App.set_device_state c3_state DeviceState.listening = (c3_state, [])
    ∧ (App.set_device_state c4_state
        DeviceState.connecting).1.device_state = DeviceState.connecting
    ∧ App.AppEvent.invokeCallback 1 ∈
        (App.set_device_state c4_state DeviceState.connecting).2
    ∧ App.AppEvent.logCallbackError 1 ∈
        (App.set_device_state c4_state DeviceState.connecting).2 :=
  ⟨(c8_set_device_state_noop_and_callbacks c3_state DeviceState.listening 0).1
      rfl,
    (c8_set_device_state_noop_and_callbacks c4_state DeviceState.connecting
      1).2.1 (by decide),
    (c8_set_device_state_noop_and_callbacks c4_state DeviceState.connecting
      1).2.2.1 (by decide) (by decide),
    (c8_set_device_state_noop_and_callbacks c4_state DeviceState.connecting
      1).2.2.2 (by decide) (by decide)⟩

/-! ### C9 -/

/-- C9: an incoming audio frame is enqueued and the output-ready signal
raised exactly when the device is speaking at delivery; in every other
state the frame is discarded and the state (queue included) is
untouched. -/
theorem c9_incoming_audio_gated_on_speaking (st : App.AppState)
    (data : List Nat) :
    (st.device_state = DeviceState.speaking →
      App.on_incoming_audio st data =
        ({ st with
            audio_queue := st.audio_queue ++ [data]
            output_ready := true }, true))
    ∧ (st.device_state ≠ DeviceState.speaking →
      App.on_incoming_audio st data = (st, false)) := by
  constructor <;> intro h <;> simp [App.on_incoming_audio, h]

/-- Witness for C9: a frame delivered while speaking is enqueued with the
signal raised; while idle it is dropped. -/
theorem c9_witness :
    (c7_state.device_state = DeviceState.speaking
      ∧ App.on_incoming_audio c7_state [9] =
          ({ c7_state with
              audio_queue := c7_state.audio_queue ++ [[9]],
              output_ready := true }, true))
    ∧ (c4_state.device_state ≠ DeviceState.speaking
      ∧ App.on_incoming_audio c4_state [9] = (c4_state, false)) :=
  ⟨⟨rfl, (c9_incoming_audio_gated_on_speaking c7_state [9]).1 rfl⟩,
    ⟨by decide, (c9_incoming_audio_gated_on_speaking c4_state [9]).2
      (by decide)⟩⟩

/-! ### C10 -/

/-- C10: the network-error callback unconditionally clears
`keep_listening` and forces idle; because the idle assignment precedes
the `device_state != CONNECTING` guard, the guarded branch always runs,
so the disconnect is logged and `close_audio_channel` is submitted
whenever a protocol instance exists — including when the device was
connecting at entry. -/
theorem c10_network_error_always_closes (st : App.AppState) (msg : String) :
    (App.on_network_error st msg).1.keep_listening = false
    ∧ (App.on_network_error st msg).1.device_state = DeviceState.idle
    ∧ App.AppEvent.disconnectDetected ∈ (App.on_network_error st msg).2
    ∧ (st.protocol = true →
        App.AppEvent.closeAudioChannel ∈ (App.on_network_error st msg).2) := by
  refine ⟨?_, ?_, ?_, fun hp => ?_⟩
  · simp [App.on_network_error, sds_noop, sds_device, sds_keep, sds_protocol]
  · simp [App.on_network_error, sds_noop, sds_device, sds_keep, sds_protocol]
  · simp [App.on_network_error, sds_noop, sds_device, sds_keep, sds_protocol]
  · simp [App.on_network_error, sds_noop, sds_device, sds_keep, sds_protocol,
      hp]

/-- Witness for C10 at a listening state with a live protocol. -/
theorem c10_witness :
    c3_state.protocol = true
    ∧ (App.on_network_error c3_state "boom").1.keep_listening = false
    ∧ (App.on_network_error c3_state "boom").1.device_state =
        DeviceState.idle
    ∧ App.AppEvent.disconnectDetected ∈
        (App.on_network_error c3_state "boom").2
    ∧ App.AppEvent.closeAudioChannel ∈
        (App.on_network_error c3_state "boom").2 :=
  ⟨rfl, (c10_network_error_always_closes c3_state "boom").1,
    (c10_network_error_always_closes c3_state "boom").2.1,
    (c10_network_error_always_closes c3_state "boom").2.2.1,
    (c10_network_error_always_closes c3_state "boom").2.2.2 rfl⟩

end XiaoZhi
